import Mathlib

/-!
# Verification of the pharmacy POS backend core

Shallow embedding of the Sale Transaction Engine, Inventory Ledger and
Role-Permission Evaluation Engine of the `pharmachy-backend` repository.

* Permission model and evaluator: `src/config/permissions.ts`
  (`ROLE_PERMISSIONS`, `getRolePermissions`, `hasPermission`).
* Inventory ledger: `updateStock` in `src/controllers/product.controller.ts`.
* Sale transaction engine: `createSale` in `src/controllers/sale.controller.ts`.

Conventions of the embedding:
* JavaScript numbers used for money are embedded as exact rationals `ℚ`
  (the source performs exact-looking decimal arithmetic; the embedding uses
  `17/100` for the literal `0.17`). Stock levels and quantities are database
  integers, embedded as `Int`.
* Optional / nullable JavaScript values are `Option`; JavaScript string
  truthiness (empty string is falsy) is modelled explicitly.
* Database state is an explicit `DB` record; every controller returns an
  `Except String` outcome paired with the database state holding exactly the
  writes that committed. `prisma.$transaction` semantics: if the callback
  throws, none of its writes persist.
-/

set_option maxRecDepth 4000

namespace PharmacyPOS

/-! ## Permission model (`src/config/permissions.ts`) -/

/-- Conditions object of a permission: optional `branchId`, `ownData`, `limit`
fields, mirroring the TypeScript interface. -/
structure Conditions where
  branchId : Option Bool := none
  ownData : Option Bool := none
  limit : Option Nat := none
deriving DecidableEq

/-- A permission entry: resource tag, allowed actions, optional conditions. -/
structure Permission where
  resource : String
  actions : List String
  conditions : Option Conditions := none
deriving DecidableEq

/-- One row of the role table. -/
structure RolePermissions where
  role : String
  permissions : List Permission
  description : String
deriving DecidableEq

/-- The static role table `ROLE_PERMISSIONS` of `permissions.ts`,
transcribed entry for entry (string constants `RESOURCES.*` / `ACTIONS.*`
inlined to their values). -/
def ROLE_PERMISSIONS : List RolePermissions := [
  { role := "PRODUCT_OWNER",
    description := "Product Owner / Subscription Admin - Full control of the POS product itself",
    permissions := [
      { resource := "users", actions := ["manage"], conditions := some { branchId := some false } },
      { resource := "branches", actions := ["manage"], conditions := some { branchId := some false } },
      { resource := "settings", actions := ["manage"], conditions := some { branchId := some false } },
      { resource := "integrations", actions := ["manage"], conditions := some { branchId := some false } },
      { resource := "backup", actions := ["manage"], conditions := some { branchId := some false } },
      { resource := "analytics", actions := ["read"], conditions := some { branchId := some false } },
      { resource := "billing", actions := ["manage"], conditions := some { branchId := some false } },
      { resource := "products", actions := [], conditions := some {} },
      { resource := "sales", actions := [], conditions := some {} },
      { resource := "prescriptions", actions := [], conditions := some {} }
    ] },
  { role := "SUPER_ADMIN",
    description := "Super Admin - Full access across all branches of their pharmacy",
    permissions := [
      { resource := "users", actions := ["manage"], conditions := some { branchId := some true } },
      { resource := "employees", actions := ["manage"], conditions := some { branchId := some true } },
      { resource := "branches", actions := ["manage"], conditions := some { branchId := some true } },
      { resource := "products", actions := ["manage"], conditions := some { branchId := some true } },
      { resource := "categories", actions := ["manage"], conditions := some { branchId := some true } },
      { resource := "suppliers", actions := ["manage"], conditions := some { branchId := some true } },
      { resource := "sales", actions := ["manage"], conditions := some { branchId := some true } },
      { resource := "reports", actions := ["manage"], conditions := some { branchId := some true } },
      { resource := "dashboard", actions := ["read"], conditions := some { branchId := some true } },
      { resource := "settings", actions := ["manage"], conditions := some { branchId := some true } },
      { resource := "integrations", actions := ["manage"], conditions := some { branchId := some true } },
      { resource := "backup", actions := ["manage"], conditions := some { branchId := some true } },
      { resource := "commissions", actions := ["manage"], conditions := some { branchId := some true } },
      { resource := "customers", actions := ["manage"], conditions := some { branchId := some true } },
      { resource := "refunds", actions := ["manage"], conditions := some { branchId := some true } }
    ] },
  { role := "MANAGER",
    description := "Manager - Manages one store/branch operations",
    permissions := [
      { resource := "users", actions := ["create", "read", "update"], conditions := some { branchId := some true } },
      { resource := "employees", actions := ["manage"], conditions := some { branchId := some true } },
      { resource := "products", actions := ["manage"], conditions := some { branchId := some true } },
      { resource := "categories", actions := ["manage"], conditions := some { branchId := some true } },
      { resource := "suppliers", actions := ["manage"], conditions := some { branchId := some true } },
      { resource := "sales", actions := ["read", "update"], conditions := some { branchId := some true } },
      { resource := "reports", actions := ["read", "export"], conditions := some { branchId := some true } },
      { resource := "dashboard", actions := ["read"], conditions := some { branchId := some true } },
      { resource := "refunds", actions := ["approve", "reject"], conditions := some { branchId := some true, limit := some 1000 } },
      { resource := "customers", actions := ["manage"], conditions := some { branchId := some true } },
      { resource := "commissions", actions := ["read"], conditions := some { branchId := some true } },
      { resource := "settings", actions := ["read"], conditions := some { branchId := some true } },
      { resource := "integrations", actions := [], conditions := some {} },
      { resource := "backup", actions := [], conditions := some {} }
    ] },
  { role := "PHARMACIST",
    description := "Pharmacist - Ensures prescriptions and medicine sales are compliant",
    permissions := [
      { resource := "products", actions := ["read", "update"], conditions := some { branchId := some true } },
      { resource := "prescriptions", actions := ["manage"], conditions := some { branchId := some true } },
      { resource := "customers", actions := ["read", "update"], conditions := some { branchId := some true } },
      { resource := "medication_history", actions := ["read"], conditions := some { branchId := some true } },
      { resource := "sales", actions := ["read", "update"], conditions := some { branchId := some true } },
      { resource := "stock_movements", actions := ["read", "update"], conditions := some { branchId := some true } },
      { resource := "dashboard", actions := ["read"], conditions := some { branchId := some true } },
      { resource := "reports", actions := ["read"], conditions := some { branchId := some true } },
      { resource := "categories", actions := ["read"], conditions := some { branchId := some true } },
      { resource := "users", actions := [], conditions := some {} },
      { resource := "employees", actions := [], conditions := some {} },
      { resource := "commissions", actions := [], conditions := some {} },
      { resource := "settings", actions := [], conditions := some {} }
    ] },
  { role := "CASHIER",
    description := "Cashier - Handles customer checkout and frontend sales",
    permissions := [
      { resource := "sales", actions := ["create", "read"], conditions := some { branchId := some true } },
      { resource := "receipts", actions := ["create", "read"], conditions := some { branchId := some true } },
      { resource := "refunds", actions := ["create", "read"], conditions := some { branchId := some true, limit := some 100 } },
      { resource := "products", actions := ["read"], conditions := some { branchId := some true } },
      { resource := "customers", actions := ["read", "create", "update"], conditions := some { branchId := some true } },
      { resource := "categories", actions := ["read"], conditions := some { branchId := some true } },
      { resource := "dashboard", actions := ["read"], conditions := some { branchId := some true } },
      { resource := "reports", actions := ["read"], conditions := some { branchId := some true, ownData := some true } },
      { resource := "users", actions := [], conditions := some {} },
      { resource := "employees", actions := [], conditions := some {} },
      { resource := "settings", actions := [], conditions := some {} },
      { resource := "suppliers", actions := [], conditions := some {} },
      { resource := "stock_movements", actions := [], conditions := some {} },
      { resource := "commissions", actions := [], conditions := some {} }
    ] }
]

/-- Function `getRolePermissions` of `permissions.ts`: the role's permission list, or
`[]` for an unknown role. -/
def getRolePermissions (role : String) : List Permission :=
  match ROLE_PERMISSIONS.find? (fun r => r.role == role) with
  | some roleConfig => roleConfig.permissions
  | none => []

/-- JavaScript truthiness of an optional string: `undefined`/`null` and the
empty string are falsy. -/
def strTruthy : Option String → Bool
  | none => false
  | some s => s != ""

/-- Evaluator `hasPermission` of `permissions.ts`: look up the role's permission for
`resource`; deny if absent or if `action` is not in `actions`; then apply the
`branchId` (cross-branch) and `ownData` conditions. The `limit` condition is
a no-op in the source. -/
def hasPermission (userRole resource action : String)
    (userBranchId targetBranchId : Option String) (isOwnData : Bool) : Bool :=
  match (getRolePermissions userRole).find? (fun p => p.resource == resource) with
  | none => false
  | some permission =>
    if !permission.actions.contains action then false
    else
      match permission.conditions with
      | none => true
      | some c =>
        if c.branchId == some true && strTruthy userBranchId && strTruthy targetBranchId
            && userBranchId != targetBranchId then false
        else if c.ownData == some true && !isOwnData then false
        else true

/-! ## Data model (Prisma entities used by the core) -/

/-- Stock movement type (`'IN' | 'OUT' | 'ADJUSTMENT' | 'RETURN'`,
`StockMovementData` in `src/models/product.model.ts`). -/
inductive MovementType where
  | IN
  | OUT
  | ADJUSTMENT
  | RETURN
deriving DecidableEq

/-- Product row: the fields the core reads and writes. -/
structure Product where
  id : String
  name : String
  stock : Int
deriving DecidableEq

/-- Immutable stock-movement row. -/
structure StockMovement where
  productId : String
  mtype : MovementType
  quantity : Int
  reason : Option String
  reference : Option String
  createdBy : Option String
deriving DecidableEq

/-- Sale header as created by `createSale`. -/
structure Sale where
  id : String
  customerId : Option String
  userId : String
  branchId : String
  subtotal : ℚ
  taxAmount : ℚ
  discountAmount : ℚ
  totalAmount : ℚ
  paymentMethod : String
  paymentStatus : String
  status : String
deriving DecidableEq

/-- Sale line item as created by `createSale`. -/
structure SaleItem where
  saleId : String
  productId : String
  quantity : Int
  unitPrice : ℚ
  totalPrice : ℚ
  batchNumber : Option String
  expiryDate : Option String
deriving DecidableEq

/-- Receipt row, one-to-one with a Sale. -/
structure Receipt where
  saleId : String
  userId : String
  branchId : String
  receiptNumber : String
deriving DecidableEq

/-- Customer row: loyalty fields touched by `createSale`. `lastVisit` is a
timestamp (`none` = never visited). -/
structure Customer where
  id : String
  totalPurchases : ℚ
  loyaltyPoints : Int
  lastVisit : Option Nat
deriving DecidableEq

/-- The relational store: the tables the core reads and writes. -/
structure DB where
  products : List Product
  sales : List Sale
  saleItems : List SaleItem
  stockMovements : List StockMovement
  receipts : List Receipt
  customers : List Customer
deriving DecidableEq

/-- Lookup `prisma.product.findUnique({ where: { id } })`. -/
def findProduct (db : DB) (id : String) : Option Product :=
  db.products.find? (fun p => p.id == id)

/-- Lookup in the customers table, used to model used to model
`prisma.customer.update` (which throws when the row is missing). -/
def findCustomer (db : DB) (id : String) : Option Customer :=
  db.customers.find? (fun c => c.id == id)

/-- Write `prisma.product.update({ where: { id }, data: { stock } })`. -/
def writeStock (db : DB) (id : String) (newStock : Int) : DB :=
  { db with products :=
      db.products.map fun p => if p.id == id then { p with stock := newStock } else p }

/-- Append `prisma.stockMovement.create`. -/
def appendMovement (db : DB) (m : StockMovement) : DB :=
  { db with stockMovements := db.stockMovements ++ [m] }

/-- Returns `true` on the success payload of a controller, `false` on an error
response. -/
def isOk {ε α : Type} : Except ε α → Bool
  | Except.ok _ => true
  | Except.error _ => false

/-! ## Inventory ledger: `updateStock`
(`src/controllers/product.controller.ts`)

The controller validates `type`/`quantity` by JavaScript truthiness only
(quantity `0` is rejected, negative quantities pass), computes the new stock
per movement type (there is no `RETURN` branch: the stock is left as read),
commits the product update with `prisma.product.update`, and then appends the
movement with `prisma.stockMovement.create`. The two writes are NOT inside a
transaction; `movementWriteFails` models a storage failure of the
movement-append write (caught by the surrounding `try`, answered as a 500
error) happening after the product update committed. -/

def updateStock (db : DB) (id : String) (mtype : Option MovementType) (quantity : Int)
    (reason reference createdBy : Option String) (movementWriteFails : Bool) :
    Except String Unit × DB :=
  match mtype with
  | none => (Except.error "Type and quantity are required", db)
  | some t =>
    if quantity == 0 then (Except.error "Type and quantity are required", db)
    else
      match findProduct db id with
      | none => (Except.error "Product not found", db)
      | some product =>
        let newStock : Int :=
          match t with
          | MovementType.IN => product.stock + quantity
          | MovementType.OUT => product.stock - quantity
          | MovementType.ADJUSTMENT => quantity
          | MovementType.RETURN => product.stock
        if t = MovementType.OUT ∧ newStock < 0 then
          (Except.error "Insufficient stock", db)
        else
          let db1 := writeStock db id newStock
          if movementWriteFails then
            (Except.error "Internal server error", db1)
          else
            (Except.ok (), appendMovement db1
              { productId := id, mtype := t, quantity := quantity,
                reason := reason, reference := reference, createdBy := createdBy })

/-! ## Sale transaction engine: `createSale`
(`src/controllers/sale.controller.ts`) -/

/-- One line item of the checkout request body. -/
structure SaleItemInput where
  productId : String
  quantity : Int
  unitPrice : ℚ
  batchNumber : Option String
  expiryDate : Option String
deriving DecidableEq

/-- The checkout request body (`CreateSaleData`). -/
structure CreateSaleData where
  customerId : Option String
  branchId : String
  items : List SaleItemInput
  paymentMethod : String
  discountAmount : ℚ
deriving DecidableEq

/-- Joi `paymentMethod` whitelist. -/
def validPaymentMethod (s : String) : Bool :=
  s == "CASH" || s == "CARD" || s == "MOBILE" || s == "BANK_TRANSFER"

/-- Joi `createSaleSchema`: at least one item, every quantity at least 1,
every unit price positive, a known payment method, nonnegative discount.
(Quantities are embedded as integers — the database column is an `Int`.) -/
def validateCreateSale (d : CreateSaleData) : Bool :=
  !d.items.isEmpty &&
  d.items.all (fun i => decide (1 ≤ i.quantity) && decide (0 < i.unitPrice)) &&
  validPaymentMethod d.paymentMethod &&
  decide (0 ≤ d.discountAmount)

/-- Subtotal: `subtotal = items.reduce((sum, item) => sum + item.quantity * item.unitPrice, 0)`. -/
def subtotalOf (items : List SaleItemInput) : ℚ :=
  items.foldl (fun sum i => sum + (i.quantity : ℚ) * i.unitPrice) 0

/-- Tax: `taxAmount = subtotal * 0.17` (17% GST; the float literal `0.17` is the
exact rational `17/100` in this embedding). -/
def taxOf (items : List SaleItemInput) : ℚ :=
  subtotalOf items * (17 / 100)

/-- Total: `totalAmount = subtotal + taxAmount - discountAmount`. No sign check is
performed by the source. -/
def totalOf (items : List SaleItemInput) (discountAmount : ℚ) : ℚ :=
  subtotalOf items + taxOf items - discountAmount

/-- Sale ids are generated by the store; the embedding mints a fresh one from
the table size. -/
def freshSaleId (db : DB) : String :=
  String.append "sale-" (toString db.sales.length)

/-- The per-item loop of the transaction: look the product up (fresh read
inside the transaction, so earlier decrements are visible), throw if missing
or short on stock, create the `SaleItem` with the server-side recomputed
`totalPrice`, decrement the stock, append the `OUT` movement. -/
def saleLoop (saleId userId : String) (items : List SaleItemInput) (db : DB) :
    Except String DB :=
  match items with
  | [] => Except.ok db
  | item :: rest =>
    match findProduct db item.productId with
    | none => Except.error (String.append "Product not found: " item.productId)
    | some product =>
      if product.stock < item.quantity then
        Except.error (String.append "Insufficient stock for " product.name)
      else
        let db1 := { db with saleItems := db.saleItems ++
          [{ saleId := saleId, productId := item.productId, quantity := item.quantity,
             unitPrice := item.unitPrice,
             totalPrice := (item.quantity : ℚ) * item.unitPrice,
             batchNumber := item.batchNumber, expiryDate := item.expiryDate }] }
        let db2 := writeStock db1 item.productId (product.stock - item.quantity)
        let db3 := appendMovement db2
          { productId := item.productId, mtype := MovementType.OUT,
            quantity := item.quantity, reason := some "Sale",
            reference := some saleId, createdBy := some userId }
        saleLoop saleId userId rest db3

/-- The customer-stats update of `createSale`:
`totalPurchases += totalAmount`, `loyaltyPoints += Math.floor(totalAmount / 100)`
(1 point per 100 PKR), `lastVisit = new Date()`. -/
def updateCustomerStats (c : Customer) (totalAmount : ℚ) (now : Nat) : Customer :=
  { c with totalPurchases := c.totalPurchases + totalAmount,
           loyaltyPoints := c.loyaltyPoints + Int.floor (totalAmount / 100),
           lastVisit := some now }

/-- Customer branch `if (saleData.customerId) { await tx.customer.update(...) }` — skipped for
a missing/empty id (JavaScript truthiness); `prisma.customer.update` throws
when the row does not exist, aborting the transaction. -/
def customerStep (customerId : Option String) (totalAmount : ℚ) (now : Nat) (db : DB) :
    Except String DB :=
  match customerId with
  | none => Except.ok db
  | some cid =>
    if cid == "" then Except.ok db
    else
      match findCustomer db cid with
      | none => Except.error "Customer not found"
      | some _ =>
        let updated := db.customers.map (fun c =>
          if c.id == cid then updateCustomerStats c totalAmount now else c)
        Except.ok { db with customers := updated }

/-- Modelled from the spec: `tx.receipt.create` against the persistent store (the
Prisma schema is not under `src/`) enforces a uniqueness constraint on
`Receipt.receiptNumber`; creating a receipt whose number already exists fails
the write, which aborts the enclosing transaction. -/
def receiptStep (saleId userId branchId receiptNumber : String) (db : DB) :
    Except String (Receipt × DB) :=
  if db.receipts.any (fun r => r.receiptNumber == receiptNumber) then
    Except.error "Unique constraint violation on receiptNumber"
  else
    let receipt : Receipt :=
      { saleId := saleId, userId := userId, branchId := branchId,
        receiptNumber := receiptNumber }
    Except.ok (receipt, { db with receipts := db.receipts ++ [receipt] })

/-- The sale header created by `tx.sale.create`: totals computed before the
transaction (`subtotal`, `taxAmount = subtotal * 0.17`,
`totalAmount = subtotal + taxAmount - discountAmount`), `paymentStatus` and
`status` hard-coded to `COMPLETED`. -/
def saleHeader (db : DB) (d : CreateSaleData) (userId : String) : Sale :=
  { id := freshSaleId db, customerId := d.customerId, userId := userId,
    branchId := d.branchId, subtotal := subtotalOf d.items,
    taxAmount := taxOf d.items, discountAmount := d.discountAmount,
    totalAmount := totalOf d.items d.discountAmount,
    paymentMethod := d.paymentMethod, paymentStatus := "COMPLETED",
    status := "COMPLETED" }

/-- The `prisma.$transaction` callback of `createSale`: create the sale
header (totals computed before the transaction, with no sign check), run the
per-item loop, update customer stats, create the receipt. `receiptNumber` is
the date-plus-random number the source mints exactly once per checkout;
`now` is the clock reading. -/
def createSaleTx (db : DB) (d : CreateSaleData) (userId receiptNumber : String)
    (now : Nat) : Except String (Sale × Receipt × DB) :=
  let totalAmount := totalOf d.items d.discountAmount
  let saleId := freshSaleId db
  let sale : Sale := saleHeader db d userId
  let db0 := { db with sales := db.sales ++ [sale] }
  match saleLoop saleId userId d.items db0 with
  | Except.error e => Except.error e
  | Except.ok db1 =>
    match customerStep d.customerId totalAmount now db1 with
    | Except.error e => Except.error e
    | Except.ok db2 =>
      match receiptStep saleId userId d.branchId receiptNumber db2 with
      | Except.error e => Except.error e
      | Except.ok (receipt, db3) => Except.ok (sale, receipt, db3)

/-- Endpoint `createSale`: Joi validation, then the transaction. If the transaction
callback throws, `prisma.$transaction` rolls every one of its writes back, so
the committed state is the initial one. -/
def createSale (db : DB) (d : CreateSaleData) (userId receiptNumber : String)
    (now : Nat) : Except String (Sale × Receipt) × DB :=
  if !validateCreateSale d then (Except.error "Validation error", db)
  else
    match createSaleTx db d userId receiptNumber now with
    | Except.error e => (Except.error e, db)
    | Except.ok (sale, receipt, db3) => (Except.ok (sale, receipt), db3)

/-- The total stored on the sale returned by a successful checkout. -/
def resultTotal (r : Except String (Sale × Receipt)) : Option ℚ :=
  match r with
  | Except.ok (sale, _) => some sale.totalAmount
  | Except.error _ => none

/-- Invariant checked by the theorems: no product has negative stock. -/
def stocksNonneg (db : DB) : Bool :=
  db.products.all (fun p => decide (0 ≤ p.stock))

/-! ## Concrete sample data for witnesses and counterexamples -/

/-- An empty store. -/
def emptyDB : DB :=
  { products := [], sales := [], saleItems := [], stockMovements := [],
    receipts := [], customers := [] }

/-- A store holding one product with stock 1 (the spec's "last unit"). -/
def dbStockOne : DB :=
  { emptyDB with products := [{ id := "p1", name := "Para", stock := 1 }] }

/-- Checkout request for 2 units of `p1` at unit price 85. -/
def reqQtyTwo : CreateSaleData :=
  { customerId := none, branchId := "b1",
    items := [{ productId := "p1", quantity := 2, unitPrice := 85,
                batchNumber := none, expiryDate := none }],
    paymentMethod := "CASH", discountAmount := 0 }

/-- A store holding one product with stock 5. -/
def dbStockFive : DB :=
  { emptyDB with products := [{ id := "p1", name := "Para", stock := 5 }] }

/-- Checkout request for 1 unit of `p1` at price 10 with discount 100, so
`total = 10 + 1.7 - 100 = -88.3`. -/
def reqBigDiscount : CreateSaleData :=
  { customerId := none, branchId := "b1",
    items := [{ productId := "p1", quantity := 1, unitPrice := 10,
                batchNumber := none, expiryDate := none }],
    paymentMethod := "CASH", discountAmount := 100 }

/-- A store with product stock 10 and an already-issued receipt numbered
`RCP-1`. -/
def dbWithReceipt : DB :=
  { emptyDB with
      products := [{ id := "p1", name := "Para", stock := 10 }],
      receipts := [{ saleId := "s0", userId := "u0", branchId := "b1",
                     receiptNumber := "RCP-1" }] }

/-- Checkout request for 1 unit of `p1` at price 10, no discount. -/
def reqOneItem : CreateSaleData :=
  { customerId := none, branchId := "b1",
    items := [{ productId := "p1", quantity := 1, unitPrice := 10,
                batchNumber := none, expiryDate := none }],
    paymentMethod := "CASH", discountAmount := 0 }

/-- Customer `c1` with no accumulated purchases or points. -/
def custC1 : Customer :=
  { id := "c1", totalPurchases := 0, loyaltyPoints := 0, lastVisit := none }

/-- A store with product stock 5 and one customer `c1` with no points yet. -/
def dbWithCustomer : DB :=
  { emptyDB with
      products := [{ id := "p1", name := "Para", stock := 5 }],
      customers := [custC1] }

/-- The spec's scenario request: customer `c1`, 2 units of `p1` at 85,
no discount — subtotal 170, tax 28.9, total 198.9. -/
def reqScenario : CreateSaleData :=
  { customerId := some "c1", branchId := "b1",
    items := [{ productId := "p1", quantity := 2, unitPrice := 85,
                batchNumber := none, expiryDate := none }],
    paymentMethod := "CASH", discountAmount := 0 }

/-! ## Theorems: permission evaluator -/

/-- C8: for every role and every (resource, action) pair such that the action
does not appear in that role's allowed-action list for the resource —
including a resource absent from the role's permission set, an empty action
list, or a list holding only other actions — `hasPermission` returns deny. -/
theorem not_granted_denied (role resource action : String)
    (userBranchId targetBranchId : Option String) (isOwnData : Bool)
    (h : ((getRolePermissions role).find? (fun p => p.resource == resource)).all
      (fun p => ! p.actions.contains action) = true) :
    hasPermission role resource action userBranchId targetBranchId isOwnData = false := by
  unfold hasPermission
  cases hf : (getRolePermissions role).find? (fun p => p.resource == resource) with
  | none => rfl
  | some perm =>
    rw [hf] at h
    simp only [Option.all_some, Bool.not_eq_true'] at h
    simp at h
    simp [h]

/-- Witness for C8 at the spec's scenario: Cashier has a `settings` entry with
an empty action list, so `evaluate('Cashier','settings','manage',...)` denies. -/
theorem not_granted_denied_witness :
    ((getRolePermissions "CASHIER").find? (fun p => p.resource == "settings")).all
      (fun p => ! p.actions.contains "manage") = true ∧
    hasPermission "CASHIER" "settings" "manage" (some "b1") (some "b1") false = false :=
  ⟨by decide,
   not_granted_denied "CASHIER" "settings" "manage" (some "b1") (some "b1") false (by decide)⟩

/-- C4 counterexample: the claim exempts SuperAdmin from branch scoping, but
`hasPermission` has no such exemption — SUPER_ADMIN's `settings`/`manage`
permission is granted same-branch yet denied cross-branch. -/
theorem superadmin_cross_branch_denied_cx :
    hasPermission "SUPER_ADMIN" "settings" "manage" (some "b1") (some "b1") false = true ∧
    hasPermission "SUPER_ADMIN" "settings" "manage" (some "b1") (some "b2") false = false :=
  ⟨by decide, by decide⟩

/-- C4 amended: every permission whose conditions declare `branchId = true`
denies when both branches are present (nonempty) and differ, for EVERY role —
the evaluator has no ProductOwner/SuperAdmin exemption. (ProductOwner is
unaffected only because none of its permissions declare `branchId = true`.) -/
theorem branch_scoped_cross_branch_denied (role resource action a b : String)
    (isOwnData : Bool) (perm : Permission) (c : Conditions)
    (hfind : (getRolePermissions role).find? (fun p => p.resource == resource) = some perm)
    (hcond : perm.conditions = some c) (hbranch : c.branchId = some true)
    (ha : a ≠ "") (hb : b ≠ "") (hab : a ≠ b) :
    hasPermission role resource action (some a) (some b) isOwnData = false := by
  unfold hasPermission
  rw [hfind]
  by_cases hact : action ∈ perm.actions
  · simp [hact, hcond, strTruthy, hbranch, ha, hb, hab]
  · simp [hact]

/-- Witness for the amended C4: Manager's branch-scoped `products` permission
denies cross-branch. -/
theorem branch_scoped_cross_branch_denied_witness :
    (getRolePermissions "MANAGER").find? (fun p => p.resource == "products") =
      some { resource := "products", actions := ["manage"],
             conditions := some { branchId := some true, ownData := none, limit := none } } ∧
    hasPermission "MANAGER" "products" "manage" (some "b1") (some "b2") false = false :=
  ⟨by decide,
   branch_scoped_cross_branch_denied "MANAGER" "products" "manage" "b1" "b2" false
     { resource := "products", actions := ["manage"],
       conditions := some { branchId := some true, ownData := none, limit := none } }
     { branchId := some true, ownData := none, limit := none }
     (by decide) (by decide) (by decide) (by decide) (by decide) (by decide)⟩

/-! ## Helper lemmas about the sale transaction -/

/-- The per-item loop touches only products, sale items and stock movements:
receipts, customers and sales pass through unchanged. -/
theorem saleLoop_frame (saleId userId : String) (items : List SaleItemInput) :
    ∀ (db db' : DB), saleLoop saleId userId items db = Except.ok db' →
      db'.receipts = db.receipts ∧ db'.customers = db.customers ∧
        db'.sales = db.sales := by
  induction items with
  | nil =>
    intro db db' h
    unfold saleLoop at h
    cases h
    exact ⟨rfl, rfl, rfl⟩
  | cons item rest ih =>
    intro db db' h
    unfold saleLoop at h
    split at h
    · cases h
    · split at h
      · cases h
      · have hrec := ih _ _ h
        exact hrec

/-- Writing a nonnegative stock value preserves the invariant. -/
theorem stocksNonneg_writeStock (db : DB) (id : String) (v : Int)
    (h : stocksNonneg db = true) (hv : 0 ≤ v) :
    stocksNonneg (writeStock db id v) = true := by
  unfold stocksNonneg writeStock at *
  rw [List.all_eq_true] at h ⊢
  intro p hp
  simp only [List.mem_map] at hp
  obtain ⟨q, hq, hqe⟩ := hp
  by_cases hid : q.id == id
  · rw [if_pos hid] at hqe
    subst hqe
    simpa using hv
  · rw [if_neg hid] at hqe
    subst hqe
    exact h q hq

/-- The loop preserves non-negative stock: a decrement only happens after the
`product.stock < item.quantity` check failed. -/
theorem saleLoop_stocksNonneg (saleId userId : String) (items : List SaleItemInput) :
    ∀ (db db' : DB), saleLoop saleId userId items db = Except.ok db' →
      stocksNonneg db = true → stocksNonneg db' = true := by
  induction items with
  | nil =>
    intro db db' h hdb
    unfold saleLoop at h
    cases h
    exact hdb
  | cons item rest ih =>
    intro db db' h hdb
    unfold saleLoop at h
    split at h
    · cases h
    · rename_i product hp
      split at h
      · cases h
      · rename_i hs
        have hv : (0 : Int) ≤ product.stock - item.quantity := by omega
        refine ih _ _ h ?_
        exact stocksNonneg_writeStock db item.productId
          (product.stock - item.quantity) hdb hv

/-- The customer-stats step touches only customers. -/
theorem customerStep_frame (customerId : Option String) (totalAmount : ℚ) (now : Nat)
    (db db' : DB) (h : customerStep customerId totalAmount now db = Except.ok db') :
    db'.products = db.products ∧ db'.receipts = db.receipts ∧
      db'.sales = db.sales ∧ db'.saleItems = db.saleItems ∧
      db'.stockMovements = db.stockMovements := by
  unfold customerStep at h
  split at h
  · cases h
    exact ⟨rfl, rfl, rfl, rfl, rfl⟩
  · split at h
    · cases h
      exact ⟨rfl, rfl, rfl, rfl, rfl⟩
    · split at h
      · cases h
      · cases h
        exact ⟨rfl, rfl, rfl, rfl, rfl⟩

/-- The receipt step touches only receipts. -/
theorem receiptStep_frame (saleId userId branchId receiptNumber : String)
    (db : DB) (receipt : Receipt) (db' : DB)
    (h : receiptStep saleId userId branchId receiptNumber db = Except.ok (receipt, db')) :
    db'.products = db.products ∧ db'.customers = db.customers := by
  unfold receiptStep at h
  by_cases hc : db.receipts.any (fun r => r.receiptNumber == receiptNumber)
  · rw [if_pos hc] at h; cases h
  · rw [if_neg hc] at h; cases h; exact ⟨rfl, rfl⟩

/-- Predicate `stocksNonneg` only looks at the products table. -/
theorem stocksNonneg_congr (db1 db2 : DB) (h : db1.products = db2.products) :
    stocksNonneg db1 = stocksNonneg db2 := by
  unfold stocksNonneg
  rw [h]

/-- Success of the transaction callback decomposes into success of the item
loop, the customer step and the receipt step, and fixes the returned sale
header. -/
theorem createSaleTx_ok_elim (db : DB) (d : CreateSaleData)
    (userId receiptNumber : String) (now : Nat)
    (sale : Sale) (receipt : Receipt) (db3 : DB)
    (h : createSaleTx db d userId receiptNumber now = Except.ok (sale, receipt, db3)) :
    sale = saleHeader db d userId ∧
    ∃ db1 db2,
      saleLoop (freshSaleId db) userId d.items
          { db with sales := db.sales ++ [saleHeader db d userId] } = Except.ok db1 ∧
      customerStep d.customerId (totalOf d.items d.discountAmount) now db1 = Except.ok db2 ∧
      receiptStep (freshSaleId db) userId d.branchId receiptNumber db2 =
        Except.ok (receipt, db3) := by
  simp only [createSaleTx] at h
  split at h
  · cases h
  · rename_i db1 hl
    split at h
    · cases h
    · rename_i db2 hc
      split at h
      · cases h
      · rename_i receipt' db3' hr
        cases h
        exact ⟨rfl, db1, db2, hl, hc, hr⟩

/-- A checkout whose outcome is a success payload decomposes into validation
plus a successful transaction, and the committed state is the transaction's
final state. -/
theorem createSale_isOk_elim (db : DB) (d : CreateSaleData)
    (userId receiptNumber : String) (now : Nat)
    (h : isOk (createSale db d userId receiptNumber now).1 = true) :
    ∃ sale receipt db3,
      validateCreateSale d = true ∧
      createSaleTx db d userId receiptNumber now = Except.ok (sale, receipt, db3) ∧
      createSale db d userId receiptNumber now = (Except.ok (sale, receipt), db3) := by
  by_cases hv : validateCreateSale d = true
  · cases htx : createSaleTx db d userId receiptNumber now with
    | error e =>
      have heq : createSale db d userId receiptNumber now = (Except.error e, db) := by
        simp [createSale, hv, htx]
      rw [heq] at h
      simp [isOk] at h
    | ok res =>
      obtain ⟨sale, receipt, db3⟩ := res
      have heq : createSale db d userId receiptNumber now = (Except.ok (sale, receipt), db3) := by
        simp [createSale, hv, htx]
      exact ⟨sale, receipt, db3, hv, rfl, heq⟩
  · have hv' : validateCreateSale d = false := by simpa using hv
    have heq : createSale db d userId receiptNumber now =
        (Except.error "Validation error", db) := by
      simp [createSale, hv']
    rw [heq] at h
    simp [isOk] at h

/-- A checkout that did not return a success payload leaves the committed
state untouched (`prisma.$transaction` rollback, or validation failing before
any write). -/
theorem createSale_error_keeps_state (db : DB) (d : CreateSaleData)
    (userId receiptNumber : String) (now : Nat)
    (h : isOk (createSale db d userId receiptNumber now).1 = false) :
    (createSale db d userId receiptNumber now).2 = db := by
  by_cases hv : validateCreateSale d = true
  · cases htx : createSaleTx db d userId receiptNumber now with
    | error e => simp [createSale, hv, htx]
    | ok res =>
      obtain ⟨sale, receipt, db3⟩ := res
      have heq : createSale db d userId receiptNumber now =
          (Except.ok (sale, receipt), db3) := by
        simp [createSale, hv, htx]
      rw [heq] at h
      simp [isOk] at h
  · have hv' : validateCreateSale d = false := by simpa using hv
    simp [createSale, hv']

/-- Behavior of the customer step on a present, nonempty customer id that
resolves to a row: it maps the update over the customers table. -/
theorem customerStep_some (cid : String) (totalAmount : ℚ) (now : Nat) (db : DB)
    (c : Customer) (hne : (cid == "") = false) (hc : findCustomer db cid = some c) :
    customerStep (some cid) totalAmount now db =
      Except.ok { db with customers := db.customers.map (fun x =>
        if x.id == cid then updateCustomerStats x totalAmount now else x) } := by
  unfold customerStep
  simp [hne, hc]

/-- Looking a customer up after mapping an id-preserving update over the
table finds the updated row. -/
theorem findCustomer_after_update (l : List Customer) (cid : String)
    (f : Customer → Customer) (hf : ∀ x, (f x).id = x.id) :
    (l.map (fun x => if x.id == cid then f x else x)).find? (fun x => x.id == cid) =
      (l.find? (fun x => x.id == cid)).map f := by
  induction l with
  | nil => rfl
  | cons c t ih =>
    simp only [List.map_cons]
    by_cases hc : (c.id == cid) = true
    · have hfc : ((f c).id == cid) = true := by rw [hf c]; exact hc
      rw [if_pos hc, List.find?_cons, List.find?_cons, hfc, hc]
      rfl
    · have hc' : (c.id == cid) = false := by simpa using hc
      rw [if_neg hc, List.find?_cons, List.find?_cons, hc']
      exact ih

/-- Folding the customer update over a list of totals accumulates exactly the
sum of the floored point increments. -/
theorem loyalty_foldl (now : Nat) (c0 : Customer) (totals : List ℚ) :
    (totals.foldl (fun x t => updateCustomerStats x t now) c0).loyaltyPoints =
      c0.loyaltyPoints + (totals.map (fun t => Int.floor (t / 100))).sum := by
  induction totals generalizing c0 with
  | nil => simp
  | cons t ts ih =>
    simp only [List.foldl_cons, List.map_cons, List.sum_cons]
    rw [ih]
    simp only [updateCustomerStats]
    ring

/-! ## Theorems: sale transaction engine and inventory ledger -/

/-- C1: for every checkout request in which any step fails (insufficient
stock, missing product, missing customer, receipt collision, validation),
no effect of that checkout persists — the committed database, and with it
every product's stock and the Sale/SaleItem/Receipt/StockMovement tables,
is exactly the initial one. -/
theorem checkout_failure_rolls_back (db : DB) (d : CreateSaleData)
    (userId receiptNumber : String) (now : Nat)
    (h : isOk (createSale db d userId receiptNumber now).1 = false) :
    (createSale db d userId receiptNumber now).2 = db :=
  createSale_error_keeps_state db d userId receiptNumber now h

/-- Witness for C1: the spec's scenario `stock = 1`, requested quantity 2 —
the checkout fails and the whole store is unchanged. -/
theorem checkout_failure_rolls_back_witness :
    isOk (createSale dbStockOne reqQtyTwo "u1" "RCP-1" 0).1 = false ∧
    (createSale dbStockOne reqQtyTwo "u1" "RCP-1" 0).2 = dbStockOne :=
  ⟨by decide, checkout_failure_rolls_back dbStockOne reqQtyTwo "u1" "RCP-1" 0 (by decide)⟩

/-- C2 counterexample: `updateStock` only checks `quantity` for truthiness,
so an ADJUSTMENT movement with quantity −3 commits and leaves the product's
stock negative. -/
theorem negative_stock_adjustment_cx :
    isOk (updateStock dbStockFive "p1" (some MovementType.ADJUSTMENT) (-3)
      none none none false).1 = true ∧
    (updateStock dbStockFive "p1" (some MovementType.ADJUSTMENT) (-3)
      none none none false).2.products.map Product.stock = [-3] ∧
    (-3 : Int) < 0 :=
  ⟨by decide, by decide, by decide⟩

/-- C2 amended: stock stays nonnegative after every committed movement with a
POSITIVE quantity (checkout quantities are validated to be at least 1, so
committed checkouts always preserve the invariant); a negative ADJUSTMENT or
IN quantity — accepted by the truthiness-only validation — can break it. -/
theorem stock_nonneg_of_positive_quantity (db : DB) (hdb : stocksNonneg db = true) :
    (∀ (id : String) (t : MovementType) (q : Int)
        (reason reference createdBy : Option String) (f : Bool), 0 < q →
      stocksNonneg (updateStock db id (some t) q reason reference createdBy f).2 = true) ∧
    (∀ (d : CreateSaleData) (userId receiptNumber : String) (now : Nat),
      stocksNonneg (createSale db d userId receiptNumber now).2 = true) := by
  constructor
  · intro id t q reason reference createdBy f hq
    unfold updateStock
    split
    · exact hdb
    · rename_i t' heq
      injection heq with heq'
      subst heq'
      split
      · exact hdb
      · split
        · exact hdb
        · rename_i product hp
          have hmem : product ∈ db.products := List.mem_of_find?_eq_some hp
          have hps : (0 : Int) ≤ product.stock := by
            have hall := List.all_eq_true.mp hdb product hmem
            simpa using hall
          split
          · -- IN: newStock = product.stock + q
            simp only []
            split
            · exact hdb
            · split
              · exact stocksNonneg_writeStock db id _ hdb (by omega)
              · exact stocksNonneg_writeStock db id _ hdb (by omega)
          · -- OUT: newStock = product.stock - q, guarded
            simp only []
            split
            · exact hdb
            · rename_i hout
              have hv : (0 : Int) ≤ product.stock - q := by
                rcases not_and_or.mp hout with hcon | hcon
                · exact absurd trivial hcon
                · omega
              split
              · exact stocksNonneg_writeStock db id _ hdb hv
              · exact stocksNonneg_writeStock db id _ hdb hv
          · -- ADJUSTMENT: newStock = q
            simp only []
            split
            · exact hdb
            · split
              · exact stocksNonneg_writeStock db id _ hdb (by omega)
              · exact stocksNonneg_writeStock db id _ hdb (by omega)
          · -- RETURN: the source has no branch, leaving the stock as read
            simp only []
            split
            · exact hdb
            · split
              · exact stocksNonneg_writeStock db id _ hdb hps
              · exact stocksNonneg_writeStock db id _ hdb hps
  · intro d userId receiptNumber now
    by_cases hv : validateCreateSale d = true
    · cases htx : createSaleTx db d userId receiptNumber now with
      | error e =>
        have heq : createSale db d userId receiptNumber now = (Except.error e, db) := by
          simp [createSale, hv, htx]
        rw [heq]
        exact hdb
      | ok res =>
        obtain ⟨sale, receipt, db3⟩ := res
        have heq : createSale db d userId receiptNumber now =
            (Except.ok (sale, receipt), db3) := by
          simp [createSale, hv, htx]
        rw [heq]
        obtain ⟨hsale, db1, db2, hl, hc, hr⟩ :=
          createSaleTx_ok_elim db d userId receiptNumber now sale receipt db3 htx
        have h0 : stocksNonneg { db with sales := db.sales ++ [saleHeader db d userId] } = true := hdb
        have h1 : stocksNonneg db1 = true := saleLoop_stocksNonneg _ _ _ _ _ hl h0
        have h2 : db2.products = db1.products := (customerStep_frame _ _ _ _ _ hc).1
        have h3 : db3.products = db2.products := (receiptStep_frame _ _ _ _ _ _ _ hr).1
        calc stocksNonneg db3 = stocksNonneg db2 := stocksNonneg_congr _ _ h3
          _ = stocksNonneg db1 := stocksNonneg_congr _ _ h2
          _ = true := h1
    · have hv' : validateCreateSale d = false := by simpa using hv
      have heq : createSale db d userId receiptNumber now =
          (Except.error "Validation error", db) := by
        simp [createSale, hv']
      rw [heq]
      exact hdb

/-- Witness for the amended C2: a committed OUT movement of 2 and the spec's
scenario checkout both leave all stocks nonnegative. -/
theorem stock_nonneg_of_positive_quantity_witness :
    stocksNonneg dbWithCustomer = true ∧ (0 : Int) < 2 ∧
    stocksNonneg (updateStock dbWithCustomer "p1" (some MovementType.OUT) 2
      none none none false).2 = true ∧
    stocksNonneg (createSale dbWithCustomer reqScenario "u1" "RCP-1" 0).2 = true :=
  ⟨by decide, by decide,
   (stock_nonneg_of_positive_quantity dbWithCustomer (by decide)).1
     "p1" MovementType.OUT 2 none none none false (by decide),
   (stock_nonneg_of_positive_quantity dbWithCustomer (by decide)).2
     reqScenario "u1" "RCP-1" 0⟩

/-- C3 counterexample: a checkout whose discount (100) exceeds
subtotal + tax (11.7) is NOT rejected — it succeeds and persists a Sale with
the negative total −88.3. -/
theorem negative_total_not_rejected_cx :
    isOk (createSale dbStockFive reqBigDiscount "u1" "RCP-1" 0).1 = true ∧
    resultTotal (createSale dbStockFive reqBigDiscount "u1" "RCP-1" 0).1 =
      some (-(883 / 10 : ℚ)) ∧
    (-(883 / 10 : ℚ)) < 0 ∧
    (createSale dbStockFive reqBigDiscount "u1" "RCP-1" 0).2.sales ≠ [] := by
  refine ⟨by decide, ?_, by norm_num, by decide⟩
  norm_num [createSale, createSaleTx, validateCreateSale, validPaymentMethod,
    saleLoop, customerStep, receiptStep, findProduct, dbStockFive, emptyDB,
    reqBigDiscount, subtotalOf, taxOf, totalOf, saleHeader, writeStock,
    appendMovement, freshSaleId, resultTotal]

/-- C3 amended: `createSale` performs no negativity check on the total — every
successful checkout stores and returns exactly
`subtotal + tax − discount`, even when that value is negative. -/
theorem checkout_total_formula (db : DB) (d : CreateSaleData)
    (userId receiptNumber : String) (now : Nat)
    (h : isOk (createSale db d userId receiptNumber now).1 = true) :
    resultTotal (createSale db d userId receiptNumber now).1 =
      some (totalOf d.items d.discountAmount) := by
  obtain ⟨sale, receipt, db3, hv, htx, heq⟩ :=
    createSale_isOk_elim db d userId receiptNumber now h
  obtain ⟨hsale, _⟩ :=
    createSaleTx_ok_elim db d userId receiptNumber now sale receipt db3 htx
  rw [heq]
  simp [resultTotal, hsale, saleHeader]

/-- Witness for the amended C3: a plain successful checkout returns the
formula total. -/
theorem checkout_total_formula_witness :
    isOk (createSale dbStockFive reqOneItem "u1" "RCP-9" 0).1 = true ∧
    resultTotal (createSale dbStockFive reqOneItem "u1" "RCP-9" 0).1 =
      some (totalOf reqOneItem.items reqOneItem.discountAmount) :=
  ⟨by decide, checkout_total_formula dbStockFive reqOneItem "u1" "RCP-9" 0 (by decide)⟩

/-- C5 counterexample: a RETURN movement of quantity 3 on stock 5 succeeds,
records a RETURN `StockMovement`, but leaves the stock at 5 instead of adding
the quantity as IN does — the source's if/else-if chain has no RETURN branch. -/
theorem return_does_not_add_stock_cx :
    isOk (updateStock dbStockFive "p1" (some MovementType.RETURN) 3
      none none none false).1 = true ∧
    (updateStock dbStockFive "p1" (some MovementType.RETURN) 3
      none none none false).2.products.map Product.stock = [5] ∧
    ([5] : List Int) ≠ [5 + 3] ∧
    (updateStock dbStockFive "p1" (some MovementType.RETURN) 3
      none none none false).2.stockMovements.map StockMovement.mtype =
      [MovementType.RETURN] :=
  ⟨by decide, by decide, by decide, by decide⟩

/-- C5 amended: on an existing product with a truthy quantity, IN adds the
quantity, OUT subtracts it and fails (state unchanged) when the result would
be negative, ADJUSTMENT sets the stock to the raw quantity, and RETURN leaves
the stock exactly as read — while all four append the corresponding
movement row on success. -/
theorem updateStock_case_behavior (db : DB) (id : String) (q : Int)
    (reason reference createdBy : Option String) (product : Product)
    (hp : findProduct db id = some product) (hq : (q == 0) = false) :
    updateStock db id (some MovementType.IN) q reason reference createdBy false =
      (Except.ok (), appendMovement (writeStock db id (product.stock + q))
        { productId := id, mtype := MovementType.IN, quantity := q,
          reason := reason, reference := reference, createdBy := createdBy }) ∧
    updateStock db id (some MovementType.OUT) q reason reference createdBy false =
      (if product.stock - q < 0 then (Except.error "Insufficient stock", db)
       else (Except.ok (), appendMovement (writeStock db id (product.stock - q))
        { productId := id, mtype := MovementType.OUT, quantity := q,
          reason := reason, reference := reference, createdBy := createdBy })) ∧
    updateStock db id (some MovementType.ADJUSTMENT) q reason reference createdBy false =
      (Except.ok (), appendMovement (writeStock db id q)
        { productId := id, mtype := MovementType.ADJUSTMENT, quantity := q,
          reason := reason, reference := reference, createdBy := createdBy }) ∧
    updateStock db id (some MovementType.RETURN) q reason reference createdBy false =
      (Except.ok (), appendMovement (writeStock db id product.stock)
        { productId := id, mtype := MovementType.RETURN, quantity := q,
          reason := reason, reference := reference, createdBy := createdBy }) := by
  refine ⟨?_, ?_, ?_, ?_⟩ <;>
    · unfold updateStock
      simp [hq, hp]

/-- Witness for the amended C5 at stock 5, quantity 3: the RETURN case writes
back the unchanged stock. -/
theorem updateStock_case_behavior_witness :
    findProduct dbStockFive "p1" = some { id := "p1", name := "Para", stock := 5 } ∧
    ((3 : Int) == 0) = false ∧
    updateStock dbStockFive "p1" (some MovementType.RETURN) 3 none none none false =
      (Except.ok (), appendMovement (writeStock dbStockFive "p1" 5)
        { productId := "p1", mtype := MovementType.RETURN, quantity := 3,
          reason := none, reference := none, createdBy := none }) :=
  ⟨by decide, by decide,
   (updateStock_case_behavior dbStockFive "p1" 3 none none none
     { id := "p1", name := "Para", stock := 5 } (by decide) (by decide)).2.2.2⟩

/-- C6 counterexample: with an existing receipt numbered RCP-1 and a fully
satisfiable cart, a checkout whose freshly generated number is also RCP-1
fails outright and is rolled back — no retry of the generation happens. -/
theorem receipt_collision_fails_sale_cx :
    isOk (createSale dbWithReceipt reqOneItem "u1" "RCP-1" 0).1 = false ∧
    (createSale dbWithReceipt reqOneItem "u1" "RCP-1" 0).2 = dbWithReceipt :=
  ⟨by decide, by decide⟩

/-- C6 amended: the engine generates the receipt number exactly once per
checkout and never retries — whenever the generated number collides with an
existing receipt, the entire checkout fails and every effect is rolled back. -/
theorem receipt_collision_aborts_checkout (db : DB) (d : CreateSaleData)
    (userId receiptNumber : String) (now : Nat)
    (hcol : db.receipts.any (fun r => r.receiptNumber == receiptNumber) = true) :
    isOk (createSale db d userId receiptNumber now).1 = false ∧
    (createSale db d userId receiptNumber now).2 = db := by
  cases hb : isOk (createSale db d userId receiptNumber now).1 with
  | false => exact ⟨rfl, createSale_error_keeps_state db d userId receiptNumber now hb⟩
  | true =>
    exfalso
    obtain ⟨sale, receipt, db3, hv, htx, heq⟩ :=
      createSale_isOk_elim db d userId receiptNumber now hb
    obtain ⟨hsale, db1, db2, hl, hcs, hr⟩ :=
      createSaleTx_ok_elim db d userId receiptNumber now sale receipt db3 htx
    have e1 : db1.receipts = db.receipts := (saleLoop_frame _ _ _ _ _ hl).1
    have e2 : db2.receipts = db1.receipts := (customerStep_frame _ _ _ _ _ hcs).2.1
    unfold receiptStep at hr
    split at hr
    · cases hr
    · rename_i hany
      rw [e2, e1] at hany
      exact hany hcol

/-- Witness for the amended C6. -/
theorem receipt_collision_aborts_checkout_witness :
    dbWithReceipt.receipts.any (fun r => r.receiptNumber == "RCP-1") = true ∧
    isOk (createSale dbWithReceipt reqScenario "u1" "RCP-1" 7).1 = false ∧
    (createSale dbWithReceipt reqScenario "u1" "RCP-1" 7).2 = dbWithReceipt :=
  ⟨by decide,
   receipt_collision_aborts_checkout dbWithReceipt reqScenario "u1" "RCP-1" 7 (by decide)⟩

/-- C7 counterexample: `updateStock` commits the product update and appends
the movement as two separate writes with no transaction. A storage failure at
the movement write surfaces as an error while the stock update (5 → 8)
stays committed and no movement row exists. -/
theorem movement_write_failure_partial_cx :
    isOk (updateStock dbStockFive "p1" (some MovementType.IN) 3
      none none none true).1 = false ∧
    (updateStock dbStockFive "p1" (some MovementType.IN) 3
      none none none true).2.products.map Product.stock = [8] ∧
    (updateStock dbStockFive "p1" (some MovementType.IN) 3
      none none none true).2.stockMovements = [] ∧
    (updateStock dbStockFive "p1" (some MovementType.IN) 3
      none none none true).2 ≠ dbStockFive :=
  ⟨by decide, by decide, by decide, by decide⟩

/-- C7 amended: every `updateStock` failure occurring before the movement
append (validation, missing product, insufficient stock) leaves the database
unchanged; atomicity fails only at the movement-append write, as the
counterexample shows. -/
theorem updateStock_failure_before_movement_keeps_state (db : DB) (id : String)
    (mtype : Option MovementType) (q : Int) (reason reference createdBy : Option String)
    (h : isOk (updateStock db id mtype q reason reference createdBy false).1 = false) :
    (updateStock db id mtype q reason reference createdBy false).2 = db := by
  unfold updateStock at h ⊢
  split
  · rfl
  · rename_i t'
    split
    · rfl
    · rename_i hq
      split
      · rfl
      · rename_i product hp
        simp only []
        split
        · rfl
        · rename_i hout
          exfalso
          simp [hq, hp, hout, isOk] at h

/-- Witness for the amended C7: an insufficient-stock OUT movement fails and
leaves the store untouched. -/
theorem updateStock_failure_before_movement_keeps_state_witness :
    isOk (updateStock dbStockFive "p1" (some MovementType.OUT) 9
      none none none false).1 = false ∧
    (updateStock dbStockFive "p1" (some MovementType.OUT) 9
      none none none false).2 = dbStockFive :=
  ⟨by decide,
   updateStock_failure_before_movement_keeps_state dbStockFive "p1"
     (some MovementType.OUT) 9 none none none (by decide)⟩

/-- C9: for every non-empty item list with positive unit prices and zero
discount, the pricing satisfies
`total = Σ(quantity × unitPrice) × (1 + taxRate)` with `taxRate = 0.17`:
`subtotal = Σ(quantity × unitPrice)`, `tax = subtotal × 0.17`,
`total = subtotal + tax`. -/
theorem price_total_factorization (items : List SaleItemInput)
    (hne : items.isEmpty = false)
    (hpos : items.all (fun i => decide (0 < i.unitPrice)) = true) :
    totalOf items 0 = subtotalOf items * (1 + 17 / 100) := by
  unfold totalOf taxOf
  ring

/-- Witness for C9 at the spec's example: one item, quantity 2, unit price 85
— subtotal 170, tax 28.9, total 198.9. -/
theorem price_total_factorization_witness :
    reqScenario.items.isEmpty = false ∧
    reqScenario.items.all (fun i => decide (0 < i.unitPrice)) = true ∧
    subtotalOf reqScenario.items = 170 ∧
    taxOf reqScenario.items = 289 / 10 ∧
    totalOf reqScenario.items 0 = 1989 / 10 ∧
    totalOf reqScenario.items 0 = subtotalOf reqScenario.items * (1 + 17 / 100) := by
  refine ⟨by decide, by decide, ?_, ?_, ?_,
    price_total_factorization reqScenario.items (by decide) (by decide)⟩
  · norm_num [subtotalOf, reqScenario]
  · norm_num [taxOf, subtotalOf, reqScenario]
  · norm_num [totalOf, taxOf, subtotalOf, reqScenario]

/-- C10: for every successful checkout with a (present, existing) customer,
the customer's loyaltyPoints increase by exactly
`floor(total / 100)` (floor division, rounding down), totalPurchases
increases by the total, and lastVisit is set to the checkout time; moreover
folding the same customer update over N totals accumulates
`Σ floor(total_i / 100)` points. -/
theorem checkout_loyalty_accrual (db : DB) (d : CreateSaleData)
    (userId receiptNumber : String) (now : Nat) (cid : String) (c : Customer)
    (hcid : d.customerId = some cid) (hid : (cid == "") = false)
    (hc : findCustomer db cid = some c)
    (hok : isOk (createSale db d userId receiptNumber now).1 = true) :
    ((findCustomer (createSale db d userId receiptNumber now).2 cid).map
        Customer.loyaltyPoints =
      some (c.loyaltyPoints + Int.floor (totalOf d.items d.discountAmount / 100)) ∧
     (findCustomer (createSale db d userId receiptNumber now).2 cid).map
        Customer.totalPurchases =
      some (c.totalPurchases + totalOf d.items d.discountAmount) ∧
     (findCustomer (createSale db d userId receiptNumber now).2 cid).map
        Customer.lastVisit = some (some now)) ∧
    ∀ (c0 : Customer) (totals : List ℚ),
      (totals.foldl (fun x t => updateCustomerStats x t now) c0).loyaltyPoints =
        c0.loyaltyPoints + (totals.map (fun t => Int.floor (t / 100))).sum := by
  refine ⟨?_, fun c0 totals => loyalty_foldl now c0 totals⟩
  obtain ⟨sale, receipt, db3, hv, htx, heq⟩ :=
    createSale_isOk_elim db d userId receiptNumber now hok
  obtain ⟨hsale, db1, db2, hl, hcs, hr⟩ :=
    createSaleTx_ok_elim db d userId receiptNumber now sale receipt db3 htx
  have e1 : db1.customers = db.customers := (saleLoop_frame _ _ _ _ _ hl).2.1
  have e2 : findCustomer db1 cid = some c := by
    unfold findCustomer at hc ⊢
    rw [e1]
    exact hc
  rw [hcid, customerStep_some cid (totalOf d.items d.discountAmount) now db1 c hid e2] at hcs
  cases hcs
  have e3 : db3.customers = db1.customers.map (fun x =>
      if x.id == cid then updateCustomerStats x (totalOf d.items d.discountAmount) now
      else x) :=
    (receiptStep_frame _ _ _ _ _ _ _ hr).2
  have e5 : findCustomer db3 cid =
      some (updateCustomerStats c (totalOf d.items d.discountAmount) now) := by
    unfold findCustomer
    rw [e3]
    rw [findCustomer_after_update db1.customers cid
      (fun x => updateCustomerStats x (totalOf d.items d.discountAmount) now)
      (fun x => rfl)]
    rw [show List.find? (fun x => x.id == cid) db1.customers = some c from e2]
    rfl
  rw [heq]
  refine ⟨?_, ?_, ?_⟩ <;> simp [e5, updateCustomerStats]

/-- Witness for C10 at the spec's scenario: total 198.9 credits exactly
`floor(1.989) = 1` point. -/
theorem checkout_loyalty_accrual_witness :
    reqScenario.customerId = some "c1" ∧
    (("c1" : String) == "") = false ∧
    findCustomer dbWithCustomer "c1" = some custC1 ∧
    isOk (createSale dbWithCustomer reqScenario "u1" "RCP-1" 7).1 = true ∧
    (findCustomer (createSale dbWithCustomer reqScenario "u1" "RCP-1" 7).2 "c1").map
        Customer.loyaltyPoints =
      some (custC1.loyaltyPoints +
        Int.floor (totalOf reqScenario.items reqScenario.discountAmount / 100)) ∧
    ([(1989 : ℚ) / 10, 50].foldl (fun x t => updateCustomerStats x t 7)
        custC1).loyaltyPoints =
      custC1.loyaltyPoints +
        ([(1989 : ℚ) / 10, 50].map (fun t => Int.floor (t / 100))).sum :=
  ⟨rfl, by decide, by decide, by decide,
   ((checkout_loyalty_accrual dbWithCustomer reqScenario "u1" "RCP-1" 7 "c1" custC1
      rfl (by decide) (by decide) (by decide)).1).1,
   (checkout_loyalty_accrual dbWithCustomer reqScenario "u1" "RCP-1" 7 "c1" custC1
      rfl (by decide) (by decide) (by decide)).2 custC1 [(1989 : ℚ) / 10, 50]⟩

end PharmacyPOS
